import Mathlib

/-!
Verification of the Suno automation repository (browser-driven workflow
state machine).  Each section shallowly embeds one part of `src/server.js`
(a concatenation of the modules of the repository): the pure utility functions,
the Google OAuth login flow of `AuthManagerPersistent`, the orchestration
methods of `SunoBot` and the `/api/create-song` / `/api/batch-create`
handlers, and the `DownloadManager` polling / download logic.  Page and
DOM state is modelled by explicit environment structures; JavaScript
exceptions are modelled with `Except`; `try`/`catch` is modelled by
matching on the `Except` value.
-/

set_option linter.unusedVariables false

namespace Suno

/-! ### utils.js -/

/-- The character class `[<>:"/\\|?*]` of the first `replace` in
`sanitizeFilename` (utils.js).  Exactly these characters are replaced. -/
def badChar (c : Char) : Bool :=
  c = '<' || c = '>' || c = ':' || c = '"' || c = '/' || c = '\\' ||
  c = '|' || c = '?' || c = '*'

/-- JavaScript regex `\s`: the whitespace class used by the second
`replace` in `sanitizeFilename`. -/
def isJsSpace (c : Char) : Bool :=
  c = ' ' || c = '\t' || c = '\n' || c = '\r' ||
  c.val = 11 || c.val = 12 ||              -- \v \f
  c.val = 0xa0 || c.val = 0x1680 ||
  (0x2000 ≤ c.val && c.val ≤ 0x200a) ||
  c.val = 0x2028 || c.val = 0x2029 ||
  c.val = 0x202f || c.val = 0x205f ||
  c.val = 0x3000 || c.val = 0xfeff

/-- One character of `.replace(/[<>:"\/\\|?*]/g, '-')`. -/
def replBad (c : Char) : Char :=
  if badChar c then '-' else c

/-- State-passing model of `.replace(/\s+/g, '_')`: each maximal run of
whitespace characters is replaced by a single underscore.  The boolean
records whether the previous character was part of a whitespace run. -/
def collapseSpacesAux : Bool → List Char → List Char
  | _, [] => []
  | prevSpace, c :: cs =>
    if isJsSpace c then
      if prevSpace then collapseSpacesAux true cs
      else '_' :: collapseSpacesAux true cs
    else c :: collapseSpacesAux false cs

/-- `.replace(/\s+/g, '_')` on a whole string. -/
def collapseSpaces (l : List Char) : List Char :=
  collapseSpacesAux false l

/-- `sanitizeFilename` from utils.js: replace the invalid filename
characters by `-`, collapse whitespace runs to `_`, truncate to 200
characters (`substring(0, 200)`).  Strings are modelled as `List Char`. -/
def sanitizeFilename (filename : List Char) : List Char :=
  (collapseSpaces (filename.map replBad)).take 200

/-- `SongCreator.randomDelay(min, max)` from song-creator.js:
`Math.floor(Math.random() * (max - min + 1)) + min`, with the draw of
`Math.random()` (a value in `[0,1)`) made an explicit parameter `r`. -/
def randomDelay (min max : ℤ) (r : ℚ) : ℤ :=
  ⌊r * ((max - min + 1 : ℤ) : ℚ)⌋ + min

/-! ### Lemmas about `sanitizeFilename` -/

lemma badChar_replBad (c : Char) : badChar (replBad c) = false := by
  cases hb : badChar c
  · have : replBad c = c := by simp [replBad, hb]
    rw [this, hb]
  · have : replBad c = '-' := by simp [replBad, hb]
    rw [this]; decide

lemma mem_collapseSpacesAux {c : Char} :
    ∀ (b : Bool) (l : List Char), c ∈ collapseSpacesAux b l →
      c = '_' ∨ c ∈ l := by
  intro b l
  induction l generalizing b with
  | nil => intro h; simp [collapseSpacesAux] at h
  | cons a as ih =>
    intro h
    unfold collapseSpacesAux at h
    cases ha : isJsSpace a with
    | true =>
      simp only [ha, eq_self_iff_true, if_true] at h
      cases b with
      | true =>
        rcases ih true h with h' | h'
        · exact Or.inl h'
        · exact Or.inr (List.mem_cons_of_mem _ h')
      | false =>
        rcases List.mem_cons.mp h with h | h
        · exact Or.inl h
        · rcases ih true h with h' | h'
          · exact Or.inl h'
          · exact Or.inr (List.mem_cons_of_mem _ h')
    | false =>
      simp only [ha, Bool.false_eq_true, if_false] at h
      rcases List.mem_cons.mp h with h | h
      · exact Or.inr (by simp [h])
      · rcases ih false h with h' | h'
        · exact Or.inl h'
        · exact Or.inr (List.mem_cons_of_mem _ h')

lemma noSpace_collapseSpacesAux {c : Char} :
    ∀ (b : Bool) (l : List Char), c ∈ collapseSpacesAux b l →
      isJsSpace c = false := by
  intro b l
  induction l generalizing b with
  | nil => intro h; simp [collapseSpacesAux] at h
  | cons a as ih =>
    intro h
    unfold collapseSpacesAux at h
    cases ha : isJsSpace a with
    | true =>
      simp only [ha, eq_self_iff_true, if_true] at h
      cases b with
      | true => exact ih true h
      | false =>
        rcases List.mem_cons.mp h with h | h
        · subst h; decide
        · exact ih true h
    | false =>
      simp only [ha, Bool.false_eq_true, if_false] at h
      rcases List.mem_cons.mp h with h | h
      · subst h; exact ha
      · exact ih false h

lemma collapseSpacesAux_of_noSpace :
    ∀ (l : List Char), (∀ c ∈ l, isJsSpace c = false) →
      collapseSpacesAux false l = l := by
  intro l h
  induction l with
  | nil => rfl
  | cons a as ih =>
    have ha : isJsSpace a = false := h a (by simp)
    unfold collapseSpacesAux
    simp only [ha, Bool.false_eq_true, if_false]
    rw [ih (fun c hc => h c (List.mem_cons_of_mem _ hc))]

lemma map_replBad_of_noBad (l : List Char) (h : ∀ c ∈ l, badChar c = false) :
    l.map replBad = l := by
  induction l with
  | nil => rfl
  | cons a as ih =>
    have ha : badChar a = false := h a (by simp)
    simp only [List.map_cons]
    rw [ih (fun c hc => h c (List.mem_cons_of_mem _ hc))]
    unfold replBad
    simp [ha]

lemma sanitizeFilename_chars (s : List Char) :
    ∀ c ∈ sanitizeFilename s, badChar c = false ∧ isJsSpace c = false := by
  intro c hc
  have hc' : c ∈ collapseSpaces (s.map replBad) :=
    List.take_subset _ _ hc
  constructor
  · rcases mem_collapseSpacesAux false _ hc' with h | h
    · subst h; decide
    · rcases List.mem_map.mp h with ⟨a, _, rfl⟩
      exact badChar_replBad a
  · exact noSpace_collapseSpacesAux false _ hc'

lemma sanitizeFilename_length (s : List Char) :
    (sanitizeFilename s).length ≤ 200 := by
  unfold sanitizeFilename
  simp [Nat.min_le_left 200 (collapseSpaces (s.map replBad)).length]

/-- C8: `sanitizeFilename` is idempotent, and its output is a fixed point:
it contains none of the characters of the class `[<>:"/\\|?*]`, contains no
(JavaScript `\s`) whitespace, and has length at most 200. -/
theorem sanitizeFilename_idem (s : List Char) :
    sanitizeFilename (sanitizeFilename s) = sanitizeFilename s ∧
    (∀ c ∈ sanitizeFilename s, badChar c = false ∧ isJsSpace c = false) ∧
    (sanitizeFilename s).length ≤ 200 := by
  refine ⟨?_, sanitizeFilename_chars s, sanitizeFilename_length s⟩
  have hchars := sanitizeFilename_chars s
  have h1 : (sanitizeFilename s).map replBad = sanitizeFilename s :=
    map_replBad_of_noBad _ (fun c hc => (hchars c hc).1)
  have h2 : collapseSpaces (sanitizeFilename s) = sanitizeFilename s :=
    collapseSpacesAux_of_noSpace _ (fun c hc => (hchars c hc).2)
  calc sanitizeFilename (sanitizeFilename s)
      = (collapseSpaces ((sanitizeFilename s).map replBad)).take 200 := rfl
    _ = (sanitizeFilename s).take 200 := by rw [h1, h2]
    _ = sanitizeFilename s := List.take_of_length_le (sanitizeFilename_length s)

/-- C9: for all integers `min ≤ max` and every value `r ∈ [0,1)` of the
underlying `Math.random()` draw, `randomDelay(min, max)` returns an integer
`n` with `min ≤ n ≤ max`. -/
theorem randomDelay_in_range (min max : ℤ) (r : ℚ)
    (hmm : min ≤ max) (h0 : 0 ≤ r) (h1 : r < 1) :
    min ≤ randomDelay min max r ∧ randomDelay min max r ≤ max := by
  unfold randomDelay
  set n : ℤ := max - min + 1 with hn
  have hnpos : 0 < n := by omega
  have hnpos' : (0 : ℚ) < (n : ℚ) := by exact_mod_cast hnpos
  have hlow : (0 : ℤ) ≤ ⌊r * (n : ℚ)⌋ := by
    apply Int.floor_nonneg.mpr
    exact mul_nonneg h0 (le_of_lt hnpos')
  have hhigh : ⌊r * (n : ℚ)⌋ < n := by
    apply Int.floor_lt.mpr
    calc r * (n : ℚ) < 1 * (n : ℚ) := by
          exact mul_lt_mul_of_pos_right h1 hnpos'
      _ = (n : ℚ) := by ring
  constructor <;> omega

/-- Witness for C9 at `min = 2`, `max = 5`, `r = 1/2`. -/
theorem randomDelay_in_range_witness :
    (2 : ℤ) ≤ randomDelay 2 5 (1/2) ∧ randomDelay 2 5 (1/2) ≤ 5 :=
  randomDelay_in_range 2 5 (1/2) (by norm_num) (by norm_num) (by norm_num)

/-! ### auth-persistent.js — `AuthManagerPersistent` Google OAuth login

The page state relevant to the login flow is abstracted into boolean
observations: whether each element-location helper (`fillEmail`,
`clickNextButton`, `fillPassword`) finds a visible match among its
candidate selectors, whether the automation-detection / 2FA markers are
visible, and whether the browser is redirected back to the suno.com
domain.  A JavaScript `throw` is an `Except.error`. -/

/-- Typed errors thrown by the individual login steps. -/
inductive LoginErr where
  | googleButtonNotFound
  | emailFieldNotFound
  | nextButtonNotFound
  | passwordFieldNotFound
  | signInButtonNotFound
  | redirectFailed
  | manualLoginTimeout
deriving DecidableEq, Repr

/-- Observable page state during `loginWithGoogle`. -/
structure LoginEnv where
  /-- `checkIfLoggedIn` finds the create page / user menu. -/
  alreadyLoggedIn : Bool
  /-- Some selector of the Google OAuth button matches a visible element. -/
  googleButtonVisible : Bool
  /-- Some selector of `fillEmail` matches a visible input. -/
  emailFieldVisible : Bool
  /-- `clickNextButton` finds a visible enabled button after the email. -/
  nextAfterEmailVisible : Bool
  /-- `checkAutomationDetected` sees a detection phrase. -/
  automationDetected : Bool
  /-- Some selector of `fillPassword` matches a visible input. -/
  passwordFieldVisible : Bool
  /-- `clickNextButton` finds a visible enabled button after the password. -/
  nextAfterPasswordVisible : Bool
  /-- `check2FARequired` sees a 2FA indicator. -/
  needs2FA : Bool
  /-- `waitForURL(/suno\.com/)` succeeds within its 30s timeout, or the
  current URL already contains suno.com afterwards. -/
  redirectsToSuno : Bool
  /-- In `waitForManualLogin`, the user completes login within 5 minutes. -/
  manualLoginCompletes : Bool
deriving DecidableEq, Repr

/-- Result object of `loginWithGoogle`
(`{ success, automated?, error? }`). -/
structure GoogleLoginResult where
  success : Bool
  automated : Bool
  error : Option LoginErr
deriving DecidableEq, Repr

/-- `waitForManualLogin` (auth-persistent.js): waits up to 5 minutes for
navigation back to suno.com; throws `manualLoginTimeout` otherwise. -/
def waitForManualLogin (env : LoginEnv) : Except LoginErr GoogleLoginResult :=
  if env.manualLoginCompletes then
    .ok { success := true, automated := false, error := none }
  else
    .error .manualLoginTimeout

/-- The `try` body of `loginWithGoogle` (steps 1-11): every step failure is
a thrown (typed) error; automation detection and 2FA divert to
`waitForManualLogin`, as does the no-credentials path. -/
def googleLoginSteps (env : LoginEnv) (hasCredentials : Bool) :
    Except LoginErr GoogleLoginResult :=
  if !env.googleButtonVisible then .error .googleButtonNotFound
  else if hasCredentials then
    if !env.emailFieldVisible then .error .emailFieldNotFound
    else if !env.nextAfterEmailVisible then .error .nextButtonNotFound
    else if env.automationDetected then waitForManualLogin env
    else if !env.passwordFieldVisible then .error .passwordFieldNotFound
    else if !env.nextAfterPasswordVisible then .error .signInButtonNotFound
    else if env.needs2FA then waitForManualLogin env
    else if env.redirectsToSuno then
      .ok { success := true, automated := true, error := none }
    else .error .redirectFailed
  else waitForManualLogin env

/-- `loginWithGoogle`: the whole step sequence is wrapped in
`try … catch (error) { return { success: false, error: error.message } }`
— the catch at the end of the method swallows every thrown step error and
returns a failure object instead of rethrowing. -/
def loginWithGoogle (env : LoginEnv) (hasCredentials : Bool) :
    GoogleLoginResult :=
  match googleLoginSteps env hasCredentials with
  | .ok r => r
  | .error e => { success := false, automated := false, error := some e }

/-- `AuthManagerPersistent.login` when the configured auth method is google: returns
`true` if already logged in, otherwise returns the `loginWithGoogle`
result object.  (The heterogeneous JS return value is modelled as a
`GoogleLoginResult`.) -/
def authManagerLogin (env : LoginEnv) (hasCredentials : Bool) :
    Except LoginErr GoogleLoginResult :=
  if env.alreadyLoggedIn then
    .ok { success := true, automated := true, error := none }
  else
    .ok (loginWithGoogle env hasCredentials)

/-- `SunoBot.login` (suno-bot.js): emits `authenticating`, awaits
`authManager.login()`, then emits `authenticated` and returns `true`; its
catch emits `auth_failed` and rethrows.  The returned list is the sequence
of status events pushed to the status callback. -/
def sunoBotLogin (env : LoginEnv) (hasCredentials : Bool) :
    Except LoginErr (List String × Bool) :=
  match authManagerLogin env hasCredentials with
  | .ok _ => .ok (["authenticating", "authenticated"], true)
  | .error e => .error e

/-- A page state in which every `fillEmail` selector fails: credentials
are supplied, the Google button is found, but no email input is visible. -/
def emailLostEnv : LoginEnv :=
  { alreadyLoggedIn := false
    googleButtonVisible := true
    emailFieldVisible := false
    nextAfterEmailVisible := false
    automationDetected := false
    passwordFieldVisible := false
    nextAfterPasswordVisible := false
    needs2FA := false
    redirectsToSuno := false
    manualLoginCompletes := false }

/-- C1: the code contradicts the claim.  When the email field cannot be
located, step 4 of `loginWithGoogle` throws a typed error, but the catch
at the end of `loginWithGoogle` swallows it and returns
`{ success: false }` without rethrowing; `SunoBot.login` never inspects
that result object, so it emits the `authenticated` status and returns
`true` to the orchestrator — the login failure is silently reported as a
successful authentication. -/
theorem login_failure_reported_as_success :
    googleLoginSteps emailLostEnv true = .error .emailFieldNotFound ∧
    (loginWithGoogle emailLostEnv true).success = false ∧
    sunoBotLogin emailLostEnv true =
      .ok (["authenticating", "authenticated"], true) := by
  refine ⟨rfl, rfl, rfl⟩

/-! ### The completion wait

Two functions are involved.  `SunoBot.waitForCompletion` (suno-bot.js) —
the one actually invoked by the batch loop — performs no polling at all:
it emits `waiting_for_completion`, sleeps `maxWaitTime` via
`page.waitForTimeout`, emits `song_completed` and returns `true`.
`DownloadManager.waitForSongCompletion` (download-manager.js) is the
polling loop described by the spec; it is never called anywhere in the
repository.  Time is modelled discretely: `t` is the elapsed
`Date.now() - startTime` in milliseconds and each loop iteration advances
it by `pollInterval` (the sleep); the status checks themselves are
instantaneous. -/

/-- Result of `SunoBot.waitForCompletion` on an open page: the emitted
status events, the returned boolean, and the elapsed time at return. -/
structure SunoWaitResult where
  statuses : List String
  result : Bool
  elapsed : Nat
deriving DecidableEq, Repr

/-- `SunoBot.waitForCompletion(songTitle, maxWaitTime)`: a simple wait —
`await this.page.waitForTimeout(waitTime)` followed by the
`song_completed` status and `return true`.  The state of the listing
(`generating`, indexed by time) is passed in but never inspected by the
code. -/
def sunoWaitForCompletion (waitTime : Nat) (generating : Nat → Bool) :
    SunoWaitResult :=
  { statuses := ["waiting_for_completion", "song_completed"]
    result := true
    elapsed := waitTime }

/-- Outcome of the `DownloadManager.waitForSongCompletion` poll loop,
tagged with the elapsed time at exit.  `timedOut` models the
`Song generation timed out` throw after the loop. -/
inductive PollResult where
  | completed : Nat → PollResult
  | timedOut : Nat → PollResult
deriving DecidableEq, Repr

/-- The loop of `DownloadManager.waitForSongCompletion` on a page with no
CAPTCHA and an open browser: while `t < maxWait`, evaluate
`checkSongStatus` (the function `check` of the elapsed time); on `true`
return, otherwise sleep `pollInterval` and re-enter the loop; once
`t ≥ maxWait` the loop exits and the timeout error is thrown. -/
def dmWaitForSongCompletion (maxWait pollInterval : Nat)
    (hp : 0 < pollInterval) (check : Nat → Bool) (t : Nat) : PollResult :=
  if h : t < maxWait then
    if check t then .completed t
    else dmWaitForSongCompletion maxWait pollInterval hp check
      (t + pollInterval)
  else .timedOut t
termination_by maxWait - t
decreasing_by omega

lemma dmWait_always_generating (maxWait pollInterval : Nat)
    (hp : 0 < pollInterval) (check : Nat → Bool)
    (hc : ∀ u, check u = false) :
    ∀ n t, maxWait - t ≤ n → t < maxWait + pollInterval →
      ∃ T, dmWaitForSongCompletion maxWait pollInterval hp check t =
          .timedOut T ∧ maxWait ≤ T ∧ T < maxWait + pollInterval := by
  intro n
  induction n with
  | zero =>
    intro t hle htlt
    rw [dmWaitForSongCompletion, dif_neg (by omega)]
    exact ⟨t, rfl, by omega, htlt⟩
  | succ n ih =>
    intro t hle htlt
    rw [dmWaitForSongCompletion]
    by_cases h : t < maxWait
    · rw [dif_pos h, if_neg (by simp [hc t])]
      exact ih (t + pollInterval) (by omega) (by omega)
    · rw [dif_neg h]
      exact ⟨t, rfl, by omega, htlt⟩

/-- C2 (counterexample): at `maxWaitTime = 120000` against a listing that
permanently shows a generating indicator, the completion wait invoked by
the orchestration (`SunoBot.waitForCompletion`) does NOT return
`TimedOut`: it emits `song_completed` and returns `true` — it reports
completion. -/
theorem completion_wait_reports_completion_when_generating :
    (sunoWaitForCompletion 120000 (fun _ => true)).result = true ∧
    (sunoWaitForCompletion 120000 (fun _ => true)).statuses =
      ["waiting_for_completion", "song_completed"] ∧
    (sunoWaitForCompletion 120000 (fun _ => true)).elapsed = 120000 :=
  ⟨rfl, rfl, rfl⟩

/-- C2 (amended): the completion wait invoked by the orchestration,
`SunoBot.waitForCompletion`, returns exactly when `maxWait` has elapsed —
never earlier and never hanging past it — but it reports completion
(`song_completed`, `true`) regardless of the listing state, never
`TimedOut`.  The uncalled polling loop `DownloadManager.waitForSongCompletion`,
under a listing whose status check always reports not-complete, never
reports completion and throws its timeout error at the first loop check at
or after `maxWait`, i.e. at a time `T` with
`maxWait ≤ T < maxWait + pollInterval`. -/
theorem completion_wait_behaviour (waitTime : Nat) (generating : Nat → Bool)
    (maxWait pollInterval : Nat) (hp : 0 < pollInterval)
    (check : Nat → Bool) (hc : ∀ u, check u = false) :
    sunoWaitForCompletion waitTime generating =
      { statuses := ["waiting_for_completion", "song_completed"]
        result := true
        elapsed := waitTime } ∧
    ∃ T, dmWaitForSongCompletion maxWait pollInterval hp check 0 =
        .timedOut T ∧ maxWait ≤ T ∧ T < maxWait + pollInterval := by
  refine ⟨rfl, ?_⟩
  exact dmWait_always_generating maxWait pollInterval hp check hc
    (maxWait - 0) 0 le_rfl (by omega)

/-- Witness for C2 (amended) at `maxWait = 2000`, `pollInterval = 1000`,
an always-generating listing: the poll loop times out at `T = 2000`. -/
theorem completion_wait_behaviour_witness :
    sunoWaitForCompletion 2000 (fun _ => true) =
      { statuses := ["waiting_for_completion", "song_completed"]
        result := true
        elapsed := 2000 } ∧
    ∃ T, dmWaitForSongCompletion 2000 1000 (by norm_num) (fun _ => false) 0 =
        .timedOut T ∧ 2000 ≤ T ∧ T < 2000 + 1000 :=
  completion_wait_behaviour 2000 (fun _ => true) 2000 1000 (by norm_num)
    (fun _ => false) (fun _ => rfl)

/-! ### server.js — the `/api/batch-create` loop and `/api/create-song`

`/api/batch-create` builds one `SunoBot`, initializes and logs in once,
then runs `for (let i = 0; i < songsCount; i++)` with a per-iteration
`try`/`catch` that increments `failCount` and continues; the outer
`finally` closes the bot exactly once and broadcasts `batch_complete`
with the accumulated counts.  A job is abstracted to whether its body
(`createSong` / `waitForCompletion` / `downloadBothSongs`) throws. -/

/-- Final state of one `/api/batch-create` run. -/
structure BatchOutcome where
  successCount : Nat
  failCount : Nat
  /-- Indices of the jobs whose iteration was entered (all of them: the
  per-iteration catch never breaks the loop). -/
  attempted : List Nat
  /-- How many times `bot.close()` ran (the `finally` block). -/
  closeCount : Nat
  /-- The counts reported by the final `batch_complete` broadcast. -/
  batchComplete : Nat × Nat
deriving DecidableEq, Repr

/-- One iteration of the batch loop: on a throw anywhere in the iteration
body the catch logs `batch_song_error`, increments the failure count and
falls through to the next index. -/
def batchStep (jobFails : Nat → Bool) (acc : Nat × Nat × List Nat)
    (i : Nat) : Nat × Nat × List Nat :=
  if jobFails i then (acc.1, acc.2.1 + 1, acc.2.2 ++ [i])
  else (acc.1 + 1, acc.2.1, acc.2.2 ++ [i])

/-- `/api/batch-create` (server.js): `initFails` abstracts a throw in
`bot.initialize()` / `bot.login()` (caught by the outer catch, skipping
the loop); otherwise the loop runs over all indices.  In both cases the
`finally` block closes the bot once and broadcasts `batch_complete` with
the accumulated counts. -/
def runBatch (songsCount : Nat) (initFails : Bool)
    (jobFails : Nat → Bool) : BatchOutcome :=
  if initFails then
    { successCount := 0, failCount := 0, attempted := []
      closeCount := 1, batchComplete := (0, 0) }
  else
    let r := (List.range songsCount).foldl (batchStep jobFails) (0, 0, [])
    { successCount := r.1, failCount := r.2.1, attempted := r.2.2
      closeCount := 1, batchComplete := (r.1, r.2.1) }

lemma batch_foldl (jobFails : Nat → Bool) :
    ∀ (l : List Nat) (s f : Nat) (a : List Nat),
      l.foldl (batchStep jobFails) (s, f, a) =
        (s + l.countP (fun i => !jobFails i), f + l.countP jobFails,
         a ++ l) := by
  intro l
  induction l with
  | nil => intro s f a; simp
  | cons x xs ih =>
    intro s f a
    simp only [List.foldl_cons, batchStep]
    cases hx : jobFails x with
    | true =>
      rw [if_pos rfl, ih]
      simp [List.countP_cons, hx]
      omega
    | false =>
      rw [if_neg (by simp), ih]
      simp [List.countP_cons, hx]
      omega

lemma countP_not_add_countP (p : Nat → Bool) :
    ∀ l : List Nat, l.countP (fun i => !p i) + l.countP p = l.length := by
  intro l
  induction l with
  | nil => rfl
  | cons x xs ih =>
    simp only [List.countP_cons, List.length_cons]
    cases hx : p x <;> simp [hx] <;> omega

/-- C3: for a batch of `N` jobs in which exactly job `k` fails and every
other job succeeds, the run still attempts every job (`attempted` is all
of `0..N-1`, so in particular jobs `k+1..N-1`), and the final
`batch_complete` broadcast reports `N-1` successes and `1` failure. -/
theorem batch_isolates_single_failure (N k : Nat) (jobFails : Nat → Bool)
    (hk : k < N) (hf : ∀ i, i < N → (jobFails i = true ↔ i = k)) :
    (runBatch N false jobFails).successCount = N - 1 ∧
    (runBatch N false jobFails).failCount = 1 ∧
    (runBatch N false jobFails).attempted = List.range N ∧
    (runBatch N false jobFails).batchComplete = (N - 1, 1) := by
  have hcong : ∀ i ∈ List.range N, (jobFails i = true ↔ (i == k) = true) := by
    intro i hi
    have hi' := List.mem_range.mp hi
    rw [hf i hi']
    simp

  have hfail : (List.range N).countP jobFails = 1 := by
    rw [List.countP_congr hcong]
    have : (List.range N).countP (fun i => i == k) = (List.range N).count k := by
      simp [List.count]
    rw [this]
    rw [List.count_eq_one_of_mem (List.nodup_range N) (List.mem_range.mpr hk)]
  have hsucc : (List.range N).countP (fun i => !jobFails i) = N - 1 := by
    have htot := countP_not_add_countP jobFails (List.range N)
    rw [List.length_range] at htot
    omega
  unfold runBatch
  simp only [Bool.false_eq_true, if_false]
  rw [batch_foldl]
  simp [hfail, hsucc]

/-- Witness for C3 at `N = 3`, `k = 1`. -/
theorem batch_isolates_single_failure_witness :
    (runBatch 3 false (fun i => i == 1)).successCount = 3 - 1 ∧
    (runBatch 3 false (fun i => i == 1)).failCount = 1 ∧
    (runBatch 3 false (fun i => i == 1)).attempted = List.range 3 ∧
    (runBatch 3 false (fun i => i == 1)).batchComplete = (3 - 1, 1) :=
  batch_isolates_single_failure 3 1 (fun i => i == 1) (by norm_num)
    (by intro i hi; simp)

/-- A step of `SunoBot.automateFullProcess` at which an error may be
thrown: song submission (`createSong`), the completion wait, or the
download step. -/
inductive JobStep where
  | submit
  | poll
  | download
deriving DecidableEq, Repr

/-- Events observable from the `/api/create-song` async runner. -/
inductive RunEvent where
  | submitted
  | polled
  | downloaded
  | statusComplete
  | statusError
  | closed
deriving DecidableEq, Repr

/-- The `try` body of the `/api/create-song` runner
(`bot.automateFullProcess`, one round): each step either completes,
appending its event, or throws, aborting the remaining steps.  Returns
the events performed and whether the body completed without a throw. -/
def singleJobBody (failAt : Option JobStep) : List RunEvent × Bool :=
  match failAt with
  | some .submit => ([], false)
  | some .poll => ([.submitted], false)
  | some .download => ([.submitted, .polled], false)
  | none => ([.submitted, .polled, .downloaded], true)

/-- The `/api/create-song` async runner (server.js): on success the
`complete` status is broadcast; on a thrown error the catch broadcasts
`error` and sleeps 30 s with the browser open; the `finally` block then
runs `await bot.close()` in every case. -/
def singleJobRun (failAt : Option JobStep) : List RunEvent :=
  let body := singleJobBody failAt
  body.1 ++ (if body.2 then [.statusComplete] else [.statusError]) ++
    [.closed]

/-- C4: on every exit path of a single-job run — normal completion or an
error thrown at the submit, poll, or download step — the `finally` block
invokes `bot.close()` exactly once, as the final action; and every
`/api/batch-create` run (whatever the set of failing jobs, including a
failed initialization) closes the bot exactly once. -/
theorem close_called_exactly_once :
    (∀ failAt : Option JobStep,
      (singleJobRun failAt).count .closed = 1 ∧
      (singleJobRun failAt).getLast? = some .closed) ∧
    (∀ (songsCount : Nat) (initFails : Bool) (jobFails : Nat → Bool),
      (runBatch songsCount initFails jobFails).closeCount = 1) := by
  constructor
  · intro failAt
    rcases failAt with _ | step
    · exact ⟨rfl, rfl⟩
    · cases step <;> exact ⟨rfl, rfl⟩
  · intro songsCount initFails jobFails
    unfold runBatch
    cases initFails <;> simp

/-! ### download-manager.js — artifact retrieval -/

/-- Typed errors thrown by `downloadSingleSong`. -/
inductive DownloadErr where
  | songNotFound (index found : Nat)
  | menuButtonNotFound
  | downloadNotTriggered
  | emptyFile
deriving DecidableEq, Repr

/-- One persisted artifact, as returned by `downloadSingleSong`
(`{ success, path, size, filename }`; the path/filename strings are
elided, the variant number and byte size kept). -/
structure DownloadRecord where
  version : Nat
  size : Nat
deriving DecidableEq, Repr

/-- Page/filesystem state relevant to `downloadSingleSong`. -/
structure DownloadEnv where
  /-- Number of visible `[data-testid="song-row"][data-clip-id]`
  containers after the visibility filter. -/
  visibleSongs : Nat
  /-- Whether a visible three-dot menu button is found in container `i`
  (including the explicit-wait fallback). -/
  menuFound : Nat → Bool
  /-- Whether a `download` event is captured for container `i` (by the
  Enter-key path or the explicit MP3-item click fallback). -/
  downloadTriggers : Nat → Bool
  /-- Byte size `fs.stat` reports for the file persisted from
  container `i`. -/
  fileSize : Nat → Nat

/-- `DownloadManager.downloadSingleSong(songTitle, version, songIndex)`:
finds the visible song containers (throws if `songIndex` is out of
range), locates the three-dot menu (throws if absent), drives the
download submenu (throws if no download event), saves the file, and
throws `Downloaded file is empty` when `stats.size === 0`. -/
def downloadSingleSong (env : DownloadEnv) (version songIndex : Nat) :
    Except DownloadErr DownloadRecord :=
  if env.visibleSongs ≤ songIndex then
    .error (.songNotFound songIndex env.visibleSongs)
  else if !env.menuFound songIndex then .error .menuButtonNotFound
  else if !env.downloadTriggers songIndex then .error .downloadNotTriggered
  else if env.fileSize songIndex = 0 then .error .emptyFile
  else .ok { version := version, size := env.fileSize songIndex }

/-- `DownloadManager.downloadBothSongs(songTitle)`: downloads version 1
from container 0 and version 2 from container 1, sequentially; any throw
propagates (the catch only logs and rethrows).  Returns
`{ downloads, count: downloads.length }`. -/
def downloadBothSongs (env : DownloadEnv) :
    Except DownloadErr (List DownloadRecord × Nat) := do
  let download1 ← downloadSingleSong env 1 0
  let download2 ← downloadSingleSong env 2 1
  return ([download1, download2], [download1, download2].length)

/-- C5: when both variants are downloadable (two visible containers, menu
and download event available for each): if both persisted files are
non-empty the call returns exactly 2 artifacts, each of strictly positive
byte size; if either file has zero bytes the whole call throws — it never
returns a partial success. -/
theorem downloadBothSongs_two_positive_artifacts (env : DownloadEnv)
    (hvis : 2 ≤ env.visibleSongs)
    (hmenu0 : env.menuFound 0 = true) (hmenu1 : env.menuFound 1 = true)
    (htrig0 : env.downloadTriggers 0 = true)
    (htrig1 : env.downloadTriggers 1 = true) :
    ((0 < env.fileSize 0 ∧ 0 < env.fileSize 1) →
      ∃ r, downloadBothSongs env = .ok r ∧ r.2 = 2 ∧ r.1.length = 2 ∧
        ∀ d ∈ r.1, 0 < d.size) ∧
    ((env.fileSize 0 = 0 ∨ env.fileSize 1 = 0) →
      ∃ e, downloadBothSongs env = .error e) := by
  have h0 : ¬ env.visibleSongs ≤ 0 := by omega
  have h1 : ¬ env.visibleSongs ≤ 1 := by omega
  constructor
  · rintro ⟨hs0, hs1⟩
    refine ⟨([⟨1, env.fileSize 0⟩, ⟨2, env.fileSize 1⟩], 2), ?_, rfl, rfl, ?_⟩
    · unfold downloadBothSongs downloadSingleSong
      rw [if_neg h0, if_neg (by simp [hmenu0]), if_neg (by simp [htrig0]),
        if_neg (by omega)]
      rw [if_neg h1, if_neg (by simp [hmenu1]), if_neg (by simp [htrig1]),
        if_neg (by omega)]
      rfl
    · intro d hd
      rcases List.mem_cons.mp hd with rfl | hd
      · exact hs0
      · rcases List.mem_cons.mp hd with rfl | hd
        · exact hs1
        · simp at hd
  · intro hzero
    rcases hzero with hz | hz
    · refine ⟨.emptyFile, ?_⟩
      unfold downloadBothSongs downloadSingleSong
      rw [if_neg h0, if_neg (by simp [hmenu0]), if_neg (by simp [htrig0]),
        if_pos hz]
      rfl
    · by_cases hz0 : env.fileSize 0 = 0
      · refine ⟨.emptyFile, ?_⟩
        unfold downloadBothSongs downloadSingleSong
        rw [if_neg h0, if_neg (by simp [hmenu0]), if_neg (by simp [htrig0]),
          if_pos hz0]
        rfl
      · refine ⟨.emptyFile, ?_⟩
        unfold downloadBothSongs downloadSingleSong
        rw [if_neg h0, if_neg (by simp [hmenu0]), if_neg (by simp [htrig0]),
          if_neg hz0]
        rw [if_neg h1, if_neg (by simp [hmenu1]), if_neg (by simp [htrig1]),
          if_pos hz]
        rfl

/-- Witness for C5: two visible containers, both downloads succeed with
sizes 5 and 7 bytes. -/
theorem downloadBothSongs_two_positive_artifacts_witness :
    ∃ r, downloadBothSongs
        { visibleSongs := 2, menuFound := fun _ => true
          downloadTriggers := fun _ => true
          fileSize := fun i => if i = 0 then 5 else 7 } = .ok r ∧
      r.2 = 2 ∧ r.1.length = 2 ∧ ∀ d ∈ r.1, 0 < d.size :=
  (downloadBothSongs_two_positive_artifacts _ (by norm_num) rfl rfl rfl
    rfl).1 (by norm_num)

/-! ### download-manager.js — `checkSongStatus` and `checkForCaptcha` -/

/-- Observable features of one song container on the `/me` listing. -/
structure SongEntry where
  /-- A loading indicator (`svg[class*="animate"]`, `.spinner`, …) is
  visible in the container. -/
  generating : Bool
  /-- A visible `button:has-text("Edit")`. -/
  hasEdit : Bool
  /-- A visible `button:has-text("Publish")`. -/
  hasPublish : Bool
  /-- The container text matches the duration pattern `/\d+:\d+/`. -/
  hasDurationText : Bool
  /-- A visible play control (`button[aria-label*="play" i]` or
  `button:has-text("Play")`). -/
  hasPlayControl : Bool
deriving DecidableEq, Repr

/-- The selection predicate of the scan loop in `checkSongStatus`
(steps 3): an entry is picked when it is not generating AND exhibits an
Edit button, a Publish button, or a duration string.  (The play control
is NOT part of this predicate.) -/
def entryCompleted (e : SongEntry) : Bool :=
  !e.generating && (e.hasEdit || e.hasPublish || e.hasDurationText)

/-- Page state of a `checkSongStatus` call.  `navFails` abstracts any
internal throw in the body (failed navigation to `/me`, a failed
locator, a closed page). -/
structure StatusPage where
  navFails : Bool
  entries : List SongEntry

/-- The `try` body of `DownloadManager.checkSongStatus(songTitle)`:
navigate to `/me`, collect the song containers, scan the first
`Math.min(allSongs.length, 10)` of them for the first entry that is not
generating and has Edit/Publish/a duration; if none, return `false`
(also when no containers are found at all); otherwise re-check the
completion indicators (Edit button, Publish button, duration pattern,
play control, in that order) on the selected entry; if none fires, log
`Assuming still processing` and return `false`.  The submitted
`songTitle` is never consulted. -/
def checkSongStatusBody (songTitle : String) (p : StatusPage) :
    Except String Bool :=
  if p.navFails then .error "navigation failed"
  else
    match (p.entries.take 10).find? entryCompleted with
    | none => .ok false
    | some e => .ok (e.hasEdit || e.hasPublish || e.hasDurationText ||
        e.hasPlayControl)

/-- `DownloadManager.checkSongStatus`: the whole body is wrapped in
`try … catch (error) { return false }`. -/
def checkSongStatus (songTitle : String) (p : StatusPage) : Bool :=
  match checkSongStatusBody songTitle p with
  | .ok b => b
  | .error _ => false

/-- Page state of a `checkForCaptcha` call. -/
structure CaptchaPage where
  /-- An internal throw reaching the outer catch (e.g. `page.url()` on a
  closed page). -/
  pageClosed : Bool
  /-- Some CAPTCHA indicator locator reports visible (per-indicator
  failures are caught and skipped by the inner loop). -/
  indicatorVisible : Bool
  /-- The current URL contains `404` or `error`. -/
  urlHasError : Bool
deriving DecidableEq, Repr

/-- The `try` body of `DownloadManager.checkForCaptcha`: scan the CAPTCHA
indicator selectors (visible one ⇒ `true`), then treat a 404/error URL as
a CAPTCHA-like issue, else `false`. -/
def checkForCaptchaBody (p : CaptchaPage) : Except String Bool :=
  if p.pageClosed then .error "page closed"
  else if p.indicatorVisible then .ok true
  else if p.urlHasError then .ok true
  else .ok false

/-- `DownloadManager.checkForCaptcha`: the whole body is wrapped in
`try … catch (error) { return false }`. -/
def checkForCaptcha (p : CaptchaPage) : Bool :=
  match checkForCaptchaBody p with
  | .ok b => b
  | .error _ => false

lemma entryCompleted_iff (e : SongEntry) :
    entryCompleted e = true ↔
      e.generating = false ∧ (e.hasEdit = true ∨ e.hasPublish = true ∨
        e.hasDurationText = true) := by
  unfold entryCompleted
  cases e.generating <;> cases e.hasEdit <;> cases e.hasPublish <;>
    cases e.hasDurationText <;> simp

/-- The wording the spec gives for the completion rule, stated as written:
classify the job complete iff the FIRST entry in the scan window that is
not showing a generating indicator exhibits at least one of an edit
action, a publish action, a duration string, or a play control. -/
def specClaimComplete (entries : List SongEntry) : Bool :=
  match (entries.take 10).find? (fun e => !e.generating) with
  | none => false
  | some e => e.hasEdit || e.hasPublish || e.hasDurationText ||
      e.hasPlayControl

/-- An entry that is finished generating but exhibits no completion
indicator at all. -/
def blankEntry : SongEntry :=
  { generating := false, hasEdit := false, hasPublish := false
    hasDurationText := false, hasPlayControl := false }

/-- An entry with a visible Edit button. -/
def editEntry : SongEntry :=
  { generating := false, hasEdit := true, hasPublish := false
    hasDurationText := false, hasPlayControl := false }

/-- C6 (counterexample): on a listing whose first entry is not generating
but exhibits no indicator while the second entry has an Edit button, the
code classifies the job as complete (the scan loop skips past the first
non-generating entry), whereas the claim — which classifies by the first
non-generating entry only — says it is not complete. -/
theorem checkSongStatus_not_first_non_generating :
    checkSongStatus "Song"
      { navFails := false, entries := [blankEntry, editEntry] } = true ∧
    specClaimComplete [blankEntry, editEntry] = false := by
  exact ⟨rfl, rfl⟩

/-- C6 (amended): `checkSongStatus` classifies the job as complete iff
SOME entry among the first `min(10, n)` listing entries is not showing a
generating indicator and exhibits an edit action, a publish action, or a
rendered duration string (a play control alone never suffices: the scan
predicate does not include it); and the result never depends on the
submitted title text. -/
theorem checkSongStatus_characterization (songTitle : String)
    (entries : List SongEntry) :
    (checkSongStatus songTitle { navFails := false, entries := entries }
        = true ↔
      ∃ e ∈ entries.take 10, e.generating = false ∧
        (e.hasEdit = true ∨ e.hasPublish = true ∨
          e.hasDurationText = true)) ∧
    (∀ other : String, ∀ p : StatusPage,
      checkSongStatus songTitle p = checkSongStatus other p) := by
  constructor
  · unfold checkSongStatus checkSongStatusBody
    simp only [Bool.false_eq_true, if_false]
    cases hfind : (entries.take 10).find? entryCompleted with
    | none =>
      simp only []
      constructor
      · intro h; exact absurd h (by simp)
      · rintro ⟨e, he, hgen, hind⟩
        have := List.find?_eq_none.mp hfind e he
        rw [entryCompleted_iff] at this
        exact absurd ⟨hgen, hind⟩ this
    | some e =>
      have hmem := List.mem_of_find?_eq_some hfind
      have hpred := List.find?_some hfind
      rw [entryCompleted_iff] at hpred
      simp only []
      constructor
      · intro h; exact ⟨e, hmem, hpred⟩
      · intro h
        rcases hpred.2 with h' | h' | h' <;> simp [h']
  · intro other p
    rfl

/-- Witness for C6 (amended): a listing with a single Edit-bearing entry
is classified complete. -/
theorem checkSongStatus_characterization_witness :
    checkSongStatus "A" { navFails := false, entries := [editEntry] }
      = true :=
  (checkSongStatus_characterization "A" [editEntry]).1.mpr
    ⟨editEntry, by simp, rfl, Or.inl rfl⟩

/-- C10: the per-iteration status checks are total at their interface:
whenever the body of `checkSongStatus` or of `checkForCaptcha` throws
internally, the surrounding catch maps the error to `false` — the caller
always receives a boolean (`false` ⇒ not complete / no challenge, so the
poll loop continues instead of aborting). -/
theorem status_checks_never_raise (songTitle : String) (p : StatusPage)
    (q : CaptchaPage) :
    (∀ e, checkSongStatusBody songTitle p = .error e →
      checkSongStatus songTitle p = false) ∧
    (∀ e, checkForCaptchaBody q = .error e → checkForCaptcha q = false) := by
  constructor
  · intro e he
    unfold checkSongStatus
    rw [he]
  · intro e he
    unfold checkForCaptcha
    rw [he]

/-- Witness for C10: a page whose navigation fails and a closed page both
yield `false`. -/
theorem status_checks_never_raise_witness :
    checkSongStatus "A" { navFails := true, entries := [] } = false ∧
    checkForCaptcha
      { pageClosed := true, indicatorVisible := false
        urlHasError := false } = false := by
  have h := status_checks_never_raise "A"
    { navFails := true, entries := [] }
    { pageClosed := true, indicatorVisible := false, urlHasError := false }
  exact ⟨h.1 "navigation failed" rfl, h.2 "page closed" rfl⟩

/-- Witness for C8 at the concrete string `a b?`. -/
theorem sanitizeFilename_idem_witness :
    sanitizeFilename (sanitizeFilename ['a', ' ', 'b', '?']) =
      sanitizeFilename ['a', ' ', 'b', '?'] ∧
    (∀ c ∈ sanitizeFilename ['a', ' ', 'b', '?'],
      badChar c = false ∧ isJsSpace c = false) ∧
    (sanitizeFilename ['a', ' ', 'b', '?']).length ≤ 200 :=
  sanitizeFilename_idem ['a', ' ', 'b', '?']

/-! ### song-creator.js — `SongCreator.createSong` -/

/-- Typed errors thrown during form submission. -/
inductive CreateErr where
  | lyricsFieldNotFound
  | styleFieldNotFound
  | createButtonNotFound
  | rateLimited
  | captchaTimeout
deriving DecidableEq, Repr

/-- Page state relevant to `createSong`. -/
structure CreateEnv where
  /-- Some lyrics textarea selector matches a visible element. -/
  lyricsFieldVisible : Bool
  /-- The style-field disambiguation (placeholder/maxlength selectors,
  the Advanced-Options exclusion, and the all-textareas fallback) yields
  a visible textarea. -/
  styleFieldVisible : Bool
  /-- Some title input selector matches a visible element. -/
  titleFieldVisible : Bool
  /-- A visible, enabled Create/Generate button exists. -/
  createButtonEnabled : Bool
  /-- After clicking Create, the URL contains `404` or `error`. -/
  errorRedirect : Bool
  /-- A CAPTCHA indicator appears after clicking Create. -/
  captchaAfterCreate : Bool
  /-- The user resolves the post-create CAPTCHA within 5 minutes. -/
  captchaSolvedInTime : Bool
deriving DecidableEq, Repr

/-- `SongCreator.fillStyles(style)`: throws
`Could not find style input field` when neither the selector list nor the
maxlength fallback identifies a visible styles textarea; the surrounding
catch takes a debug screenshot and rethrows. -/
def fillStyles (env : CreateEnv) : Except CreateErr Unit :=
  if env.styleFieldVisible then .ok () else .error .styleFieldNotFound

/-- `SongCreator.addSongTitle(title)`: if no title input is found it only
warns (`continuing without title`); its catch also only warns — this step
never throws.  Returns whether the title was actually filled. -/
def addSongTitle (env : CreateEnv) : Bool :=
  env.titleFieldVisible

/-- `SongCreator.clickCreate()`: throws when no enabled Create button is
found; after the click, `checkForPostCreateIssues` throws `Rate limited`
on an error redirect and `waitForCaptchaSolution` throws on a CAPTCHA the
user does not solve within 5 minutes. -/
def clickCreate (env : CreateEnv) : Except CreateErr Unit :=
  if !env.createButtonEnabled then .error .createButtonNotFound
  else if env.errorRedirect then .error .rateLimited
  else if env.captchaAfterCreate && !env.captchaSolvedInTime then
    .error .captchaTimeout
  else .ok ()

/-- Result object of `createSong` (`{ success, timestamp, title, style }`,
with `titleFilled` recording whether the optional title step filled the
field). -/
structure CreateResult where
  success : Bool
  titleFilled : Bool
deriving DecidableEq, Repr

/-- `SongCreator.createSong({ title, lyrics, style })`: navigate, select
custom mode (its errors are swallowed), fill lyrics when
`lyrics && lyrics.trim()`, fill styles (fatal on failure), fill the title
when `title` is truthy (never fatal), click Create. -/
def createSong (env : CreateEnv) (title lyrics : String) :
    Except CreateErr CreateResult := do
  if lyrics.trim ≠ "" then
    if env.lyricsFieldVisible then pure ()
    else throw .lyricsFieldNotFound
  fillStyles env
  let titleFilled := if title ≠ "" then addSongTitle env else false
  clickCreate env
  return { success := true, titleFilled := titleFilled }

/-- C7: failing to locate the style input aborts the whole `createSong`
call with an error, while failing to locate the title input is non-fatal:
with every other step succeeding, the call completes successfully with
the title left unfilled. -/
theorem style_fatal_title_optional (env : CreateEnv)
    (title lyrics : String)
    (hlyr : lyrics.trim = "" ∨ env.lyricsFieldVisible = true) :
    (env.styleFieldVisible = false →
      createSong env title lyrics = .error .styleFieldNotFound) ∧
    (env.styleFieldVisible = true → env.titleFieldVisible = false →
      env.createButtonEnabled = true → env.errorRedirect = false →
      env.captchaAfterCreate = false →
      createSong env title lyrics =
        .ok { success := true, titleFilled := false }) := by
  constructor
  · intro hstyle
    unfold createSong fillStyles
    rcases hlyr with h | h
    · rw [if_neg (by simp [h]), hstyle]
      rfl
    · by_cases hl : lyrics.trim ≠ ""
      · rw [if_pos hl, if_pos h, hstyle]
        rfl
      · rw [if_neg hl, hstyle]
        rfl
  · intro hstyle htitle hbutton hredir hcaptcha
    unfold createSong fillStyles clickCreate addSongTitle
    have hrest : (if title ≠ "" then env.titleFieldVisible else false)
        = false := by
      by_cases ht : title ≠ "" <;> simp [ht, htitle]
    rcases hlyr with h | h
    · rw [if_neg (by simp [h]), hstyle]
      simp [hbutton, hredir, hcaptcha, hrest]
      rfl
    · by_cases hl : lyrics.trim ≠ ""
      · rw [if_pos hl, if_pos h, hstyle]
        simp [hbutton, hredir, hcaptcha, hrest]
        rfl
      · rw [if_neg hl, hstyle]
        simp [hbutton, hredir, hcaptcha, hrest]
        rfl

/-- Witness for C7: a page with no title field but a working style field
and Create button completes; flipping the style field off aborts. -/
theorem style_fatal_title_optional_witness :
    (createSong
      { lyricsFieldVisible := true, styleFieldVisible := false
        titleFieldVisible := false, createButtonEnabled := true
        errorRedirect := false, captchaAfterCreate := false
        captchaSolvedInTime := false } "My Song" "la la" =
      .error .styleFieldNotFound) ∧
    (createSong
      { lyricsFieldVisible := true, styleFieldVisible := true
        titleFieldVisible := false, createButtonEnabled := true
        errorRedirect := false, captchaAfterCreate := false
        captchaSolvedInTime := false } "My Song" "la la" =
      .ok { success := true, titleFilled := false }) := by
  constructor
  · exact (style_fatal_title_optional _ "My Song" "la la"
      (Or.inr rfl)).1 rfl
  · exact (style_fatal_title_optional _ "My Song" "la la"
      (Or.inr rfl)).2 rfl rfl rfl rfl rfl

end Suno
